import Mathlib

/-
Verification of the home-finances core of msyucel/master-homehub.

Shallow embedding notes:
- JavaScript numbers are modelled as exact rationals (ℚ); NaN is modelled as
  the `none` case of `Option ℚ` where a computation can produce it.
- `parseInt(s, 10)` / `parseFloat(s)` are modelled as prefix parsers returning
  `Option` (none = NaN).  The inputs reaching them in the modelled paths are
  DECIMAL-column renderings and ISO date components, which carry no exponent
  or Infinity forms, so those branches of the builtins are not modelled.
- Dates arrive from the database either as ISO strings or as Date objects that
  the code immediately re-renders via toISOString(); both are modelled as the
  ISO string (`Option String`, none = null/undefined).
- All definitions are translated from src/backend/server.js,
  src/backend/utils/encryption.js and the finances component
  (src/unnamed/part_000) unless a doc comment says otherwise.
-/

/-- Digit run of a character list interpreted as a base-10 natural number
(the accumulation JS performs for a digit run). -/
def digitsToNat (ds : List Char) : Nat :=
  ds.foldl (fun a c => a * 10 + (c.toNat - 48)) 0

/-- Split a character list into its leading run of ASCII digits and the rest. -/
def spanDigits (cs : List Char) : List Char × List Char :=
  (cs.takeWhile Char.isDigit, cs.dropWhile Char.isDigit)

/-- Model of JavaScript parseInt(s, 10): optional sign then a leading digit
run; `none` models NaN (no digits). -/
def jsParseInt (s : String) : Option Int :=
  let cs := s.data.dropWhile (fun c => c = ' ')
  let signAndRest : Int × List Char :=
    match cs with
    | '-' :: rest => (-1, rest)
    | '+' :: rest => (1, rest)
    | _ => (1, cs)
  let ds := (spanDigits signAndRest.2).1
  if ds.isEmpty then none
  else some (signAndRest.1 * (digitsToNat ds : Int))

/-- Character-level scan of JavaScript parseFloat(s): optional sign, integer
digits, optional fraction after a dot; `none` models NaN (no digits at
all).  Returns the sign and the two digit runs. -/
def jsParseFloatScan (s : String) : Option (Bool × List Char × List Char) :=
  let cs := s.data.dropWhile (fun c => c = ' ')
  let signAndRest : Bool × List Char :=
    match cs with
    | '-' :: rest => (true, rest)
    | '+' :: rest => (false, rest)
    | _ => (false, cs)
  let intPart := spanDigits signAndRest.2
  let fracDs : List Char :=
    match intPart.2 with
    | '.' :: rest => (spanDigits rest).1
    | _ => []
  if intPart.1.isEmpty ∧ fracDs.isEmpty then none
  else some (signAndRest.1, intPart.1, fracDs)

/-- Numeric value of a scanned float: sign times intDigits.fracDigits. -/
def floatPartsVal : Bool × List Char × List Char → ℚ
  | (neg, intDs, fracDs) =>
    (if neg then (-1 : ℚ) else 1) *
      ((digitsToNat intDs : ℚ) + (digitsToNat fracDs : ℚ) / (10 : ℚ) ^ fracDs.length)

/-- Model of JavaScript parseFloat(s); `none` models NaN. -/
def jsParseFloat (s : String) : Option ℚ :=
  (jsParseFloatScan s).map floatPartsVal

/-- Model of JavaScript String.prototype.split with a one-character separator
(the only form the finance code uses). -/
def splitOnChar (c : Char) (s : String) : List String :=
  (s.data.splitOn c).map List.asString

/-- JS truthiness of a nullable string: null/undefined and "" are falsy. -/
def strTruthy : Option String → Bool
  | none => false
  | some s => !s.isEmpty

/-- Finance record type column. -/
inductive FinType
  | income
  | expense
deriving DecidableEq, Repr

/-- A finance record as both the server query and the client component see it.
`amount` is the decoded (domain) amount; the at-rest codec is modelled
separately. -/
structure Finance where
  id : Int
  original_finance_id : Option Int := none
  type : FinType
  amount : ℚ
  transaction_date : Option String
  due_date : Option String := none
  payment_months : Option Int := none
  is_recurring : Bool := false
deriving DecidableEq, Repr

/-- The date-component split both the server's parseDateParts and the
client's getDateParts perform: take the part before T, split on dashes. -/
def dateComps (s : String) : List String :=
  splitOnChar '-' ((splitOnChar 'T' s).headD "")

/-- server.js parseDateParts: parseInt the first two date components; null
when either is NaN.  (The falsy check on the incoming value and the
Date-object branch collapse to the same result on the string model: an empty
or missing value parses to none.) -/
def parseDateParts (dateValue : Option String) : Option (Int × Int) :=
  match dateValue with
  | none => none
  | some s =>
    match jsParseInt ((dateComps s).getD 0 ""), jsParseInt ((dateComps s).getD 1 "") with
    | some y, some m => some (y, m)
    | _, _ => none

/-- server.js getMonthIndex on parsed (year, month). -/
def getMonthIndex (parts : Int × Int) : Int :=
  parts.1 * 12 + (parts.2 - 1)

/-- server.js selectedMonthIndex for the queried month/year. -/
def selectedMonthIndex (month year : Int) : Int :=
  year * 12 + (month - 1)

/-- server.js calculateMonthlyContribution: the per-record monthly share used
by the balance endpoint.  Order of rules, as in the source: unparseable
transaction date → 0; explicit payment plan window (payment_months > 1);
due-date range; recurring; plain single month. -/
def calculateMonthlyContribution (month year : Int) (record : Finance)
    (decodedAmount : ℚ) : ℚ :=
  match parseDateParts record.transaction_date with
  | none => 0
  | some tp =>
    let transactionIndex := getMonthIndex tp
    let selIdx := selectedMonthIndex month year
    let paymentMonths := record.payment_months.getD 0
    if 1 < paymentMonths then
      let monthsDiff := selIdx - transactionIndex
      if 0 ≤ monthsDiff ∧ monthsDiff < paymentMonths then
        decodedAmount / (paymentMonths : ℚ)
      else 0
    else
      match parseDateParts record.due_date with
      | some dp =>
        if transactionIndex ≤ selIdx ∧ selIdx ≤ getMonthIndex dp then decodedAmount
        else if record.is_recurring then decodedAmount
        else if selIdx = transactionIndex then decodedAmount
        else 0
      | none =>
        if record.is_recurring then decodedAmount
        else if selIdx = transactionIndex then decodedAmount
        else 0

/-- Balance-endpoint total for one type: sum of per-record contributions over
the fetched records of that type. -/
def serverTotalFor (t : FinType) (month year : Int) (records : List Finance) : ℚ :=
  (records.map (fun r =>
    if r.type = t then calculateMonthlyContribution month year r r.amount else 0)).sum

/-- Client getDateParts result (finances component). -/
structure DateParts where
  year : Int
  month : Int
  day : Int
deriving DecidableEq, Repr

/-- Client getDateParts: parse year/month/day from an ISO string, with each
NaN component falling back to the current (queried) year / month / day 1; a
null or empty string yields the current month entirely. -/
def getDateParts (currentYear currentMonth : Int) (dateString : Option String) :
    DateParts :=
  match dateString with
  | none => ⟨currentYear, currentMonth, 1⟩
  | some s =>
    { year := (jsParseInt ((dateComps s).getD 0 "")).getD currentYear
      month := (jsParseInt ((dateComps s).getD 1 "")).getD currentMonth
      day := (jsParseInt ((dateComps s).getD 2 "")).getD 1 }

/-- Client getMonthIndex. -/
def getMonthIndexC (year month : Int) : Int :=
  year * 12 + (month - 1)

/-- Client getMonthDiff. -/
def getMonthDiff (start finish : DateParts) : Int :=
  getMonthIndexC finish.year finish.month - getMonthIndexC start.year start.month

/-- Number.EPSILON, kept exactly in the rational model. -/
def jsEpsilon : ℚ := 1 / 2 ^ 52

/-- JS Math.round: round half toward positive infinity. -/
def jsMathRound (x : ℚ) : Int :=
  Int.floor (x + 1 / 2)

/-- Client getMonthlyAmount: total/months rounded to 2 decimals after an
epsilon nudge; a falsy or non-positive months returns the total unchanged. -/
def getMonthlyAmount (total : ℚ) (months : Int) : ℚ :=
  if months = 0 ∨ months ≤ 0 then total
  else
    let monthly := total / (months : ℚ)
    (jsMathRound ((monthly + jsEpsilon) * 100) : ℚ) / 100

/-- Left-pad the decimal rendering of a nonnegative int to width 2 with 0
(padStart as used by formatDate; the clamped inputs are nonnegative). -/
def pad2 (n : Int) : String :=
  let s := toString n
  if s.length < 2 then "0" ++ s else s

/-- Client formatDate: clamp month to [1,12] and day to [1,28], then render
year-MM-DD. -/
def formatDate (year month day : Int) : String :=
  let safeMonth := min (max month 1) 12
  let safeDay := min (max day 1) 28
  toString year ++ "-" ++ pad2 safeMonth ++ "-" ++ pad2 safeDay

/-- The record shape pushed to displayedFinances: the original fields with
the display-specific overrides applied. -/
structure DisplayedFinance where
  id : Int
  original_finance_id : Option Int
  type : FinType
  amount : ℚ
  transaction_date : String
  payment_months : Option Int
  payment_month_index : Option Int
  is_recurring : Bool
deriving DecidableEq, Repr

/-- Outcome of the client display loop body for one record and one target
month, tagged with the branch (numbered 1-3 in the source comments) that
produced it; `hidden` is the fall-through that pushes nothing. -/
inductive ClientDisplay
  | plan (f : DisplayedFinance)
  | recurring (f : DisplayedFinance)
  | regular (f : DisplayedFinance)
  | hidden
deriving DecidableEq, Repr

/-- processFinancesForDisplay local transactionParts. -/
def transactionPartsOf (currentYear currentMonth : Int) (finance : Finance) :
    DateParts :=
  getDateParts currentYear currentMonth finance.transaction_date

/-- processFinancesForDisplay local transactionIndex. -/
def transactionIndexOf (currentYear currentMonth : Int) (finance : Finance) : Int :=
  getMonthIndexC (transactionPartsOf currentYear currentMonth finance).year
    (transactionPartsOf currentYear currentMonth finance).month

/-- processFinancesForDisplay local dueParts (null unless due_date is
truthy). -/
def duePartsOf (currentYear currentMonth : Int) (finance : Finance) :
    Option DateParts :=
  if strTruthy finance.due_date then
    some (getDateParts currentYear currentMonth finance.due_date)
  else none

/-- processFinancesForDisplay local displayDay:
dueParts?.day || transactionParts.day || 1 (JS truthiness on numbers). -/
def displayDayOf (currentYear currentMonth : Int) (finance : Finance) : Int :=
  match duePartsOf currentYear currentMonth finance with
  | some dp =>
    if dp.day ≠ 0 then dp.day
    else if (transactionPartsOf currentYear currentMonth finance).day ≠ 0 then
      (transactionPartsOf currentYear currentMonth finance).day
    else 1
  | none =>
    if (transactionPartsOf currentYear currentMonth finance).day ≠ 0 then
      (transactionPartsOf currentYear currentMonth finance).day
    else 1

/-- processFinancesForDisplay local dueMonths. -/
def dueMonthsOf (currentYear currentMonth : Int) (finance : Finance) : Int :=
  match duePartsOf currentYear currentMonth finance with
  | some dp => getMonthDiff (transactionPartsOf currentYear currentMonth finance) dp + 1
  | none => 1

/-- processFinancesForDisplay local planMonths: the explicit payment_months
when > 1, else the due-date span when > 1, else 1. -/
def planMonthsOf (currentYear currentMonth : Int) (finance : Finance) : Int :=
  if 1 < finance.payment_months.getD 0 then finance.payment_months.getD 0
  else if 1 < dueMonthsOf currentYear currentMonth finance then
    dueMonthsOf currentYear currentMonth finance
  else 1

/-- processFinancesForDisplay local monthsDiff. -/
def monthsDiffOf (currentYear currentMonth : Int) (finance : Finance) : Int :=
  getMonthIndexC currentYear currentMonth -
    transactionIndexOf currentYear currentMonth finance

/-- processFinancesForDisplay local originalId:
finance.original_finance_id || finance.id. -/
def originalIdOf (finance : Finance) : Int :=
  match finance.original_finance_id with
  | some v => if v ≠ 0 then v else finance.id
  | none => finance.id

/-- Client processFinancesForDisplay, body for a single record: classify the
record for the queried (currentYear, currentMonth) and build the displayed
entry.  Mirrors the source order: payment-plan/due-range window first, then
recurring, then plain single month. -/
def displayFinanceForMonth (currentYear currentMonth : Int) (finance : Finance) :
    ClientDisplay :=
  if 1 < planMonthsOf currentYear currentMonth finance ∧
      0 ≤ monthsDiffOf currentYear currentMonth finance ∧
      monthsDiffOf currentYear currentMonth finance <
        planMonthsOf currentYear currentMonth finance then
    ClientDisplay.plan
      { id := originalIdOf finance * 1000 +
          (monthsDiffOf currentYear currentMonth finance + 1)
        original_finance_id := some (originalIdOf finance)
        type := finance.type
        amount :=
          if 1 < finance.payment_months.getD 0 then
            getMonthlyAmount finance.amount (finance.payment_months.getD 0)
          else finance.amount
        transaction_date :=
          formatDate currentYear currentMonth
            (displayDayOf currentYear currentMonth finance)
        payment_months := some (planMonthsOf currentYear currentMonth finance)
        payment_month_index := some (monthsDiffOf currentYear currentMonth finance + 1)
        is_recurring := finance.is_recurring }
  else if finance.is_recurring then
    ClientDisplay.recurring
      { id := finance.id
        original_finance_id := finance.original_finance_id
        type := finance.type
        amount := finance.amount
        transaction_date :=
          formatDate currentYear currentMonth
            (displayDayOf currentYear currentMonth finance)
        payment_months := finance.payment_months
        payment_month_index := none
        is_recurring := finance.is_recurring }
  else if monthsDiffOf currentYear currentMonth finance = 0 then
    ClientDisplay.regular
      { id := finance.id
        original_finance_id := finance.original_finance_id
        type := finance.type
        amount := finance.amount
        transaction_date :=
          formatDate (transactionPartsOf currentYear currentMonth finance).year
            (transactionPartsOf currentYear currentMonth finance).month
            (displayDayOf currentYear currentMonth finance)
        payment_months := finance.payment_months
        payment_month_index := none
        is_recurring := finance.is_recurring }
  else ClientDisplay.hidden

/-- The displayed entry, if any, produced for one record. -/
def displayedEntry (currentYear currentMonth : Int) (finance : Finance) :
    Option DisplayedFinance :=
  match displayFinanceForMonth currentYear currentMonth finance with
  | ClientDisplay.plan f => some f
  | ClientDisplay.recurring f => some f
  | ClientDisplay.regular f => some f
  | ClientDisplay.hidden => none

/-- The amount the client shows for one record in the queried month (0 when
the record is not displayed). -/
def clientDisplayedAmount (currentYear currentMonth : Int) (finance : Finance) : ℚ :=
  match displayedEntry currentYear currentMonth finance with
  | some f => f.amount
  | none => 0

/-- Client processFinancesForDisplay over a list (display order - the final
date-descending sort - does not affect membership or amounts). -/
def processFinancesForDisplay (currentYear currentMonth : Int)
    (finances : List Finance) : List DisplayedFinance :=
  finances.filterMap (displayedEntry currentYear currentMonth)

/-- Sum of the displayed amounts of one type: what the client list shows as
that type's monthly entries. -/
def clientTotalFor (t : FinType) (month year : Int) (records : List Finance) : ℚ :=
  (records.map (fun r =>
    if r.type = t then clientDisplayedAmount year month r else 0)).sum

/-- Gregorian leap-year rule, as the JS Date object applies it. -/
def isLeapYear (y : Int) : Bool :=
  (y % 4 == 0) && (y % 100 != 0 || y % 400 == 0)

/-- Days in a (1-based) month of a year, as the JS Date object uses. -/
def daysInMonth (y m : Int) : Int :=
  if m = 2 then (if isLeapYear y then 29 else 28)
  else if m = 4 ∨ m = 6 ∨ m = 9 ∨ m = 11 then 30
  else 31

/-- Day-overflow normalization of the JS Date constructor: while the day
exceeds the month length, subtract it and advance one month.  Fuel-bounded
(each step removes at least 28 days, so a fuel of the day count suffices). -/
def rollDays : Nat → Int → Int → Int → Int × Int × Int
  | 0, y, m, d => (y, m, d)
  | Nat.succ fuel, y, m, d =>
    if daysInMonth y m < d then
      if m = 12 then rollDays fuel (y + 1) 1 (d - daysInMonth y m)
      else rollDays fuel y (m + 1) (d - daysInMonth y m)
    else (y, m, d)

/-- server.js finances list endpoint, recurring-record display date:
new Date(year, month-1, originalDate.getDate()).toISOString().split('T')[0],
modelled under a UTC clock for a day value ≥ 1 (getDate of a valid date).
The JS constructor first folds an out-of-range 0-based month into the year,
then rolls an overflowing day forward into following months - it does NOT
clamp. -/
def serverRecurringDisplayDate (year month day : Int) : Int × Int × Int :=
  let m0 := month - 1
  let y1 := year + m0.fdiv 12
  let m1 := m0.emod 12 + 1
  rollDays day.toNat y1 m1 day

/-- AMOUNT_OBFUSCATION_FACTOR from server.js. -/
def AMOUNT_OBFUSCATION_FACTOR : ℚ := 1009

/-- server.js POST/PUT handlers: obfuscate the amount before storing. -/
def obfuscateAmount (amount : ℚ) : ℚ :=
  amount * AMOUNT_OBFUSCATION_FACTOR

/-- server.js read paths: deobfuscate a stored numeric amount. -/
def deobfuscateAmount (stored : ℚ) : ℚ :=
  stored / AMOUNT_OBFUSCATION_FACTOR

/-- server.js finances list endpoint, amount deobfuscation of one stored
(DECIMAL-column string) value: parseFloat then divide by the factor.
parseFloat and division never throw on a string, so the catch-block that
would set the documented 0 fallback is unreachable on this path; a
non-numeric stored value therefore yields NaN (modelled as none), not 0. -/
def deobfuscateListAmount (stored : String) : Option ℚ :=
  match jsParseFloat stored with
  | none => none
  | some v => some (deobfuscateAmount v)

/-- The list-endpoint loop over stored amounts: every record is processed,
each independently of the others. -/
def processListAmounts (storedAmounts : List String) : List (Option ℚ) :=
  storedAmounts.map deobfuscateListAmount

/-- encryption.js encryptAmount, with the Node crypto primitives abstracted:
numToString stands for Number.prototype.toString, ivHex/tagHex for the hex
renderings of the random IV and the GCM tag, and cipher for the AES-256-GCM
encryption of the UTF-8 plaintext to hex.  The produced wire format is
ivHex:tagHex:ciphertextHex, exactly as the source concatenates it. -/
def encryptAmount (numToString : ℚ → String) (ivHex tagHex : String)
    (cipher : String → String) (amount : ℚ) : String :=
  ivHex ++ ":" ++ tagHex ++ ":" ++ cipher (numToString amount)

/-- Result of decryptAmount: a numeric value (none = NaN), or the thrown
invalid-format error. -/
inductive DecryptResult
  | value (v : Option ℚ)
  | failure (msg : String)
deriving DecidableEq, Repr

/-- encryption.js decryptAmount, with decipher standing for the AES-256-GCM
decryption: split on the colons; a three-part value is deciphered and the
plaintext parsed with parseFloat; anything else falls back to a plain
parseFloat and throws when that is NaN.  (A GCM authentication failure, which
the abstract total decipher cannot exhibit, takes the same fallback path.) -/
def decryptAmount (decipher : String → String) (encryptedAmount : String) :
    DecryptResult :=
  match splitOnChar ':' encryptedAmount with
  | [_ivHex, _tagHex, encrypted] =>
    DecryptResult.value (jsParseFloat (decipher encrypted))
  | _ =>
    match jsParseFloat encryptedAmount with
    | some v => DecryptResult.value (some v)
    | none => DecryptResult.failure "Invalid encrypted amount format"

/-- One home_finances row (the stored amount is the obfuscated value). -/
structure FinanceRow where
  type : String
  category : String
  amount : ℚ
  description : Option String
  transaction_date : String
  is_recurring : Bool
  due_date : Option String
  payment_months : Option Int
deriving DecidableEq, Repr

/-- A finance record's persistent state: its row and its visibility rows. -/
structure FinanceState where
  row : FinanceRow
  visibility : List Int
deriving DecidableEq, Repr

/-- Body of PUT /api/homes/:id/finances/:financeId.  The outer Option models
undefined (field absent from the body); the inner Option of due_date /
payment_months models an explicit null. -/
structure PutRequest where
  type : Option String := none
  category : Option String := none
  amount : Option ℚ := none
  description : Option (Option String) := none
  transaction_date : Option String := none
  is_recurring : Option Bool := none
  visible_to_user_ids : Option (List Int) := none
  due_date : Option (Option String) := none
  payment_months : Option (Option Int) := none
deriving Repr

/-- The single UPDATE statement the PUT handler builds: every provided field
applied to the row at once. -/
def applyFieldUpdates (row : FinanceRow) (req : PutRequest) : FinanceRow :=
  let row := match req.type with
    | some t => { row with type := t }
    | none => row
  let row := match req.category with
    | some c => { row with category := c }
    | none => row
  let row := match req.amount with
    | some a => { row with amount := obfuscateAmount a }
    | none => row
  let row := match req.description with
    | some d => { row with description := d }
    | none => row
  let row := match req.transaction_date with
    | some d => { row with transaction_date := d }
    | none => row
  let row := match req.is_recurring with
    | some b => { row with is_recurring := b }
    | none => row
  let row := match req.due_date with
    | some d =>
      { row with due_date :=
          match d with
          | some str => if str.isEmpty then none else some str
          | none => none }
    | none => row
  match req.payment_months with
  | some pm =>
    { row with payment_months :=
        match pm with
        | some n => if n ≠ 0 then some n else none
        | none => none }
  | none => row

/-- Outcome of the PUT handler, carrying the persistent state as it is when
the response is sent. -/
inductive PutOutcome
  | ok (s : FinanceState)
  | clientError (code : Int) (s : FinanceState)
deriving DecidableEq, Repr

/-- PUT /api/homes/:id/finances/:financeId, persistence-relevant flow:
payment_months and type validation (before any write), then the single
UPDATE applying all provided fields, then - only after the fields are already
written - the visibility-id validation, and finally the visibility
delete-and-reinsert.  validUserIds models the accepted-members-or-owner
query result. -/
def putFinance (validUserIds : List Int) (s : FinanceState) (req : PutRequest) :
    PutOutcome :=
  if (match req.payment_months with
      | some (some n) => decide (n < 1)
      | _ => false) then
    PutOutcome.clientError 400 s
  else if (match req.type with
      | some t => !(t == "income" || t == "expense")
      | none => false) then
    PutOutcome.clientError 400 s
  else
    let s1 : FinanceState := { s with row := applyFieldUpdates s.row req }
    match req.visible_to_user_ids with
    | none => PutOutcome.ok s1
    | some ids =>
      if !ids.isEmpty && ids.any (fun i => !(validUserIds.contains i)) then
        PutOutcome.clientError 400 s1
      else PutOutcome.ok { s1 with visibility := ids }

/-- Body of POST /api/homes/:id/finances (none models a missing field). -/
structure PostRequest where
  type : Option String := none
  category : Option String := none
  amount : Option ℚ := none
  description : Option String := none
  transaction_date : Option String := none
  is_recurring : Option Bool := none
  visible_to_user_ids : Option (List Int) := none
  due_date : Option String := none
  payment_months : Option Int := none
deriving Repr

/-- Outcome of the POST handler: either the freshly inserted state or a
client error, in which case nothing was inserted. -/
inductive PostOutcome
  | created (s : FinanceState)
  | clientError (code : Int)
deriving DecidableEq, Repr

/-- JS truthiness of the required POST fields (absent, empty string and a
zero amount are falsy). -/
def postRequiredMissing (req : PostRequest) : Bool :=
  !(strTruthy req.type) || !(strTruthy req.category) ||
    (match req.amount with
     | none => true
     | some a => a == 0) || !(strTruthy req.transaction_date)

/-- POST /api/homes/:id/finances, persistence-relevant flow: required-field
and type validation, then visibility-id validation, then payment_months
validation - all before the INSERTs run, so an invalid request creates
nothing. -/
def postFinance (validUserIds : List Int) (req : PostRequest) : PostOutcome :=
  if postRequiredMissing req then PostOutcome.clientError 400
  else if ¬(req.type = some "income" ∨ req.type = some "expense") then
    PostOutcome.clientError 400
  else if (match req.visible_to_user_ids with
      | some ids => !ids.isEmpty && ids.any (fun i => !(validUserIds.contains i))
      | none => false) then
    PostOutcome.clientError 400
  else if (match req.payment_months with
      | some n => decide (n < 1)
      | none => false) then
    PostOutcome.clientError 400
  else
    PostOutcome.created
      { row :=
          { type := (req.type.getD "")
            category := req.category.getD ""
            amount := obfuscateAmount ((req.amount.getD 0))
            description := req.description
            transaction_date := req.transaction_date.getD ""
            is_recurring := req.is_recurring.getD false
            due_date :=
              match req.due_date with
              | some str => if str.isEmpty then none else some str
              | none => none
            payment_months := req.payment_months }
        visibility := (req.visible_to_user_ids.getD []) }

/-- C10: the server-side monthly-contribution function is total, and a record
whose transaction_date is missing or unparseable contributes 0 to the balance
for every queried month and amount, instead of failing. -/
theorem C10_malformed_date_contributes_zero (month year : Int) (r : Finance)
    (amt : ℚ) (h : parseDateParts r.transaction_date = none) :
    calculateMonthlyContribution month year r amt = 0 := by
  unfold calculateMonthlyContribution
  rw [h]

/-- Witness for C10 at concrete malformed inputs: an unparseable string and a
missing date both contribute 0. -/
theorem C10_malformed_date_contributes_zero_witness :
    parseDateParts (some "not-a-date") = none ∧
    calculateMonthlyContribution 1 2024
      { id := 1, type := FinType.expense, amount := 5,
        transaction_date := some "not-a-date" } 5 = 0 ∧
    calculateMonthlyContribution 7 2030
      { id := 2, type := FinType.income, amount := 9,
        transaction_date := none } 9 = 0 :=
  ⟨by decide,
   C10_malformed_date_contributes_zero 1 2024 _ 5 (by decide),
   C10_malformed_date_contributes_zero 7 2030 _ 9 (by decide)⟩

/-- C7 (code bug evidence): the list endpoint's deobfuscation of a corrupt
stored amount yields NaN (none), not the documented 0 fallback - parseFloat
never throws, so the catch that would substitute 0 is unreachable - while
processing of the remaining records does continue (the loop maps every record
independently). -/
theorem C7_corrupt_amount_yields_nan_not_zero :
    deobfuscateListAmount "corrupt!" = none ∧
    (none : Option ℚ) ≠ some 0 ∧
    processListAmounts ["corrupt!", "1009"] =
      [none, some (deobfuscateAmount 1009)] := by
  have h : jsParseFloat "1009" = some 1009 := by
    have hs : jsParseFloatScan "1009" = some (false, ['1', '0', '0', '9'], []) := by
      decide
    have hd : digitsToNat ['1', '0', '0', '9'] = 1009 := by decide
    have hd0 : digitsToNat [] = 0 := rfl
    norm_num [jsParseFloat, hs, floatPartsVal, hd, hd0]
  have hc : jsParseFloat "corrupt!" = none := by
    have hs : jsParseFloatScan "corrupt!" = none := by decide
    simp [jsParseFloat, hs]
  refine ⟨?_, by simp, ?_⟩
  · simp [deobfuscateListAmount, hc]
  · simp [processListAmounts, deobfuscateListAmount, hc, h]

/-- C6 (code bug evidence): the server-side recurring-record display-date
projector does not clamp the day - projecting a transaction dated the 31st
onto February 2024 rolls over to 2024-03-02, a date outside the queried
month; the client-side formatDate, by contrast, does clamp into [1,28]. -/
theorem C6_server_projector_leaves_target_month :
    serverRecurringDisplayDate 2024 2 31 = (2024, 3, 2) ∧
    (serverRecurringDisplayDate 2024 2 31).2.1 ≠ 2 ∧
    serverRecurringDisplayDate 2025 1 31 = (2025, 1, 31) ∧
    (serverRecurringDisplayDate 2025 1 31).2.2 > 28 ∧
    formatDate 2024 2 31 = "2024-02-28" := by
  refine ⟨by decide, by decide, by decide, by decide, by decide⟩

/-- When the server-side parse of a date string succeeds, the client-side
getDateParts extracts the same year and month, whatever the current month. -/
theorem getDateParts_of_parse (cy cm y m : Int) (s : String)
    (h : parseDateParts (some s) = some (y, m)) :
    (getDateParts cy cm (some s)).year = y ∧ (getDateParts cy cm (some s)).month = m := by
  simp only [parseDateParts] at h
  simp only [getDateParts]
  cases h0 : jsParseInt ((dateComps s).getD 0 "") with
  | none => rw [h0] at h; simp at h
  | some yv =>
    cases h1 : jsParseInt ((dateComps s).getD 1 "") with
    | none => rw [h0, h1] at h; simp at h
    | some mv =>
      rw [h0, h1] at h
      simp only [Option.some.injEq, Prod.mk.injEq] at h
      simp [h.1, h.2]

/-- The server's selected-month index and the client's month index agree. -/
theorem selectedMonthIndex_eq (month year : Int) :
    selectedMonthIndex month year = getMonthIndexC year month := rfl

/-- The server's parsed-pair month index and the client's agree. -/
theorem getMonthIndex_eq (y m : Int) : getMonthIndex (y, m) = getMonthIndexC y m := rfl

/-- A record whose transaction date parses has a transaction-date string. -/
theorem tx_some_of_parse (r : Finance) (p : Int × Int)
    (h : parseDateParts r.transaction_date = some p) :
    ∃ s, r.transaction_date = some s := by
  cases hrt : r.transaction_date with
  | none => rw [hrt] at h; simp [parseDateParts] at h
  | some s => exact ⟨s, rfl⟩

/-- The client's displayed amount, at the level of the classification
conditions: plan window → plan share (divided and rounded only for an
explicit payment_months), else recurring → full amount, else current month →
full amount, else nothing. -/
theorem clientAmount_unfold (cy cm : Int) (f : Finance) :
    clientDisplayedAmount cy cm f =
      if 1 < planMonthsOf cy cm f ∧ 0 ≤ monthsDiffOf cy cm f ∧
          monthsDiffOf cy cm f < planMonthsOf cy cm f then
        (if 1 < f.payment_months.getD 0 then
          getMonthlyAmount f.amount (f.payment_months.getD 0)
        else f.amount)
      else if f.is_recurring then f.amount
      else if monthsDiffOf cy cm f = 0 then f.amount
      else 0 := by
  unfold clientDisplayedAmount displayedEntry displayFinanceForMonth
  split_ifs <;> rfl

/-- monthsDiffOf in terms of the parsed transaction month. -/
theorem monthsDiffOf_eq (cy cm : Int) (r : Finance) (ty tm : Int) (s : String)
    (hs : r.transaction_date = some s)
    (htx : parseDateParts (some s) = some (ty, tm)) :
    monthsDiffOf cy cm r = getMonthIndexC cy cm - getMonthIndexC ty tm := by
  obtain ⟨hy, hm⟩ := getDateParts_of_parse cy cm ty tm s htx
  unfold monthsDiffOf transactionIndexOf transactionPartsOf
  rw [hs, hy, hm]

/-- dueMonthsOf is 1 when there is no due date. -/
theorem dueMonthsOf_none (cy cm : Int) (r : Finance) (hd : r.due_date = none) :
    dueMonthsOf cy cm r = 1 := by
  simp [dueMonthsOf, duePartsOf, hd, strTruthy]

/-- dueMonthsOf in terms of the parsed transaction and due months. -/
theorem dueMonthsOf_eq (cy cm : Int) (r : Finance) (s sd : String) (ty tm dy dm : Int)
    (hst : r.transaction_date = some s) (htx : parseDateParts (some s) = some (ty, tm))
    (hsd : r.due_date = some sd) (ht : strTruthy (some sd) = true)
    (hp : parseDateParts (some sd) = some (dy, dm)) :
    dueMonthsOf cy cm r = getMonthIndexC dy dm - getMonthIndexC ty tm + 1 := by
  obtain ⟨hy, hm⟩ := getDateParts_of_parse cy cm ty tm s htx
  obtain ⟨hy2, hm2⟩ := getDateParts_of_parse cy cm dy dm sd hp
  unfold dueMonthsOf duePartsOf transactionPartsOf getMonthDiff
  rw [hsd, hst, ht]
  simp [hy, hm, hy2, hm2]

/-- Per-record client/server agreement for well-formed records (parseable
transaction date, absent-or-parseable due date, and no record that is both an
explicit multi-month plan and recurring): the client shows exactly the
server's monthly contribution, except that an active explicit plan's share is
the 2-decimal-rounded division on the client. -/
theorem clientServer_per_record (month year : Int) (r : Finance) (ty tm : Int)
    (htx : parseDateParts r.transaction_date = some (ty, tm))
    (hdue : r.due_date = none ∨
      (strTruthy r.due_date = true ∧ parseDateParts r.due_date ≠ none))
    (hnr : ¬(1 < r.payment_months.getD 0 ∧ r.is_recurring = true)) :
    clientDisplayedAmount year month r =
      if 1 < r.payment_months.getD 0 ∧
          0 ≤ getMonthIndexC year month - getMonthIndexC ty tm ∧
          getMonthIndexC year month - getMonthIndexC ty tm < r.payment_months.getD 0 then
        getMonthlyAmount r.amount (r.payment_months.getD 0)
      else calculateMonthlyContribution month year r r.amount := by
  obtain ⟨s, hs⟩ := tx_some_of_parse r _ htx
  rw [hs] at htx
  have hmd := monthsDiffOf_eq year month r ty tm s hs htx
  rw [clientAmount_unfold, hmd]
  simp only [calculateMonthlyContribution, hs, htx, getMonthIndex_eq, selectedMonthIndex_eq]
  by_cases hpm : 1 < r.payment_months.getD 0
  · have hrecn : ¬(r.is_recurring = true) := by
      cases hb : r.is_recurring
      · simp
      · exact absurd ⟨hpm, hb⟩ hnr
    have hplan : planMonthsOf year month r = r.payment_months.getD 0 := by
      unfold planMonthsOf; rw [if_pos hpm]
    rw [hplan, if_pos hpm]
    by_cases hw : 0 ≤ getMonthIndexC year month - getMonthIndexC ty tm ∧
        getMonthIndexC year month - getMonthIndexC ty tm < r.payment_months.getD 0
    · rw [if_pos ⟨hpm, hw.1, hw.2⟩, if_pos ⟨hpm, hw.1, hw.2⟩]
    · rw [if_neg (show ¬(1 < r.payment_months.getD 0 ∧
          0 ≤ getMonthIndexC year month - getMonthIndexC ty tm ∧
          getMonthIndexC year month - getMonthIndexC ty tm < r.payment_months.getD 0)
          from fun hcon => hw ⟨hcon.2.1, hcon.2.2⟩),
        if_neg (show ¬(1 < r.payment_months.getD 0 ∧
          0 ≤ getMonthIndexC year month - getMonthIndexC ty tm ∧
          getMonthIndexC year month - getMonthIndexC ty tm < r.payment_months.getD 0)
          from fun hcon => hw ⟨hcon.2.1, hcon.2.2⟩),
        if_neg hrecn, if_neg (show ¬(getMonthIndexC year month -
          getMonthIndexC ty tm = 0) by omega),
        if_pos hpm, if_neg hw]
  · have houter : ¬(1 < r.payment_months.getD 0 ∧
        0 ≤ getMonthIndexC year month - getMonthIndexC ty tm ∧
        getMonthIndexC year month - getMonthIndexC ty tm < r.payment_months.getD 0) :=
      fun hcon => hpm hcon.1
    have hplan2 : planMonthsOf year month r =
        if 1 < dueMonthsOf year month r then dueMonthsOf year month r else 1 := by
      unfold planMonthsOf; rw [if_neg hpm]
    rw [if_neg houter, if_neg hpm, if_neg hpm]
    rcases hdue with hd | ⟨hdt, hdp⟩
    · have hdm1 := dueMonthsOf_none year month r hd
      have hplan1 : planMonthsOf year month r = 1 := by
        rw [hplan2, hdm1]; norm_num
      have hc1 : ¬(1 < planMonthsOf year month r ∧
          0 ≤ getMonthIndexC year month - getMonthIndexC ty tm ∧
          getMonthIndexC year month - getMonthIndexC ty tm < planMonthsOf year month r) := by
        rw [hplan1]; rintro ⟨hcon, -⟩; omega
      rw [if_neg hc1, hd]
      show (if r.is_recurring = true then r.amount
          else if getMonthIndexC year month - getMonthIndexC ty tm = 0 then
            r.amount else 0) =
        (if r.is_recurring = true then r.amount
          else if getMonthIndexC year month = getMonthIndexC ty tm then
            r.amount else 0)
      by_cases hrec2 : r.is_recurring = true
      · rw [if_pos hrec2, if_pos hrec2]
      · rw [if_neg hrec2, if_neg hrec2]
        by_cases hD : getMonthIndexC year month - getMonthIndexC ty tm = 0
        · rw [if_pos hD, if_pos (show getMonthIndexC year month =
            getMonthIndexC ty tm by omega)]
        · rw [if_neg hD, if_neg (show ¬(getMonthIndexC year month =
            getMonthIndexC ty tm) by omega)]
    · obtain ⟨sd, hsd⟩ : ∃ sd, r.due_date = some sd := by
        cases hdd : r.due_date with
        | none => rw [hdd] at hdt; simp [strTruthy] at hdt
        | some sd => exact ⟨sd, rfl⟩
      rw [hsd] at hdt hdp
      obtain ⟨⟨dy, dm⟩, hp⟩ : ∃ p, parseDateParts (some sd) = some p := by
        cases hpp : parseDateParts (some sd) with
        | none => exact absurd hpp hdp
        | some p => exact ⟨p, rfl⟩
      have hdm := dueMonthsOf_eq year month r s sd ty tm dy dm hs htx hsd hdt hp
      rw [hsd, hp]
      simp only [getMonthIndex_eq]
      by_cases h1d : 1 < getMonthIndexC dy dm - getMonthIndexC ty tm + 1
      · have hplanD : planMonthsOf year month r =
            getMonthIndexC dy dm - getMonthIndexC ty tm + 1 := by
          rw [hplan2, hdm, if_pos (by omega)]
        by_cases hw2 : 0 ≤ getMonthIndexC year month - getMonthIndexC ty tm ∧
            getMonthIndexC year month - getMonthIndexC ty tm <
              getMonthIndexC dy dm - getMonthIndexC ty tm + 1
        · have hc : 1 < planMonthsOf year month r ∧
              0 ≤ getMonthIndexC year month - getMonthIndexC ty tm ∧
              getMonthIndexC year month - getMonthIndexC ty tm <
                planMonthsOf year month r := by
            rw [hplanD]; exact ⟨by omega, hw2.1, hw2.2⟩
          rw [if_pos hc, if_pos (⟨by omega, by omega⟩ :
            getMonthIndexC ty tm ≤ getMonthIndexC year month ∧
            getMonthIndexC year month ≤ getMonthIndexC dy dm)]
        · have hc : ¬(1 < planMonthsOf year month r ∧
              0 ≤ getMonthIndexC year month - getMonthIndexC ty tm ∧
              getMonthIndexC year month - getMonthIndexC ty tm <
                planMonthsOf year month r) := by
            rw [hplanD]; rintro ⟨-, h2, h3⟩; exact hw2 ⟨h2, h3⟩
          have hnc : ¬(getMonthIndexC ty tm ≤ getMonthIndexC year month ∧
              getMonthIndexC year month ≤ getMonthIndexC dy dm) := by
            rintro ⟨h2, h3⟩; exact hw2 ⟨by omega, by omega⟩
          rw [if_neg hc, if_neg hnc]
          by_cases hrec2 : r.is_recurring = true
          · rw [if_pos hrec2, if_pos hrec2]
          · have hD : ¬(getMonthIndexC year month - getMonthIndexC ty tm = 0) := by
              intro h0; exact hw2 ⟨by omega, by omega⟩
            rw [if_neg hrec2, if_neg hrec2, if_neg hD,
              if_neg (show ¬(getMonthIndexC year month =
                getMonthIndexC ty tm) by omega)]
      · have hplanO : planMonthsOf year month r = 1 := by
          rw [hplan2, hdm, if_neg (by omega)]
        have hc : ¬(1 < planMonthsOf year month r ∧
            0 ≤ getMonthIndexC year month - getMonthIndexC ty tm ∧
            getMonthIndexC year month - getMonthIndexC ty tm <
              planMonthsOf year month r) := by
          rw [hplanO]; rintro ⟨hcon, -⟩; omega
        rw [if_neg hc]
        by_cases hrec2 : r.is_recurring = true
        · by_cases hC : getMonthIndexC ty tm ≤ getMonthIndexC year month ∧
              getMonthIndexC year month ≤ getMonthIndexC dy dm
          · rw [if_pos hrec2, if_pos hC]
          · rw [if_pos hrec2, if_neg hC, if_pos hrec2]
        · rw [if_neg hrec2]
          by_cases hD : getMonthIndexC year month - getMonthIndexC ty tm = 0
          · by_cases hC : getMonthIndexC ty tm ≤ getMonthIndexC year month ∧
                getMonthIndexC year month ≤ getMonthIndexC dy dm
            · rw [if_pos hD, if_pos hC]
            · rw [if_pos hD, if_neg hC, if_neg hrec2,
                if_pos (show getMonthIndexC year month = getMonthIndexC ty tm by omega)]
          · have hnc : ¬(getMonthIndexC ty tm ≤ getMonthIndexC year month ∧
                getMonthIndexC year month ≤ getMonthIndexC dy dm) := by
              rintro ⟨h2, h3⟩; omega
            rw [if_neg hD, if_neg hnc, if_neg hrec2,
              if_neg (show ¬(getMonthIndexC year month =
                getMonthIndexC ty tm) by omega)]

/-- Server plan rule: an explicit payment_months > 1 record is classified by
the plan window alone - recurring flag and due date never reach evaluation. -/
theorem server_plan_rule (month year : Int) (r : Finance) (ty tm : Int) (amt : ℚ)
    (htx : parseDateParts r.transaction_date = some (ty, tm))
    (hpm : 1 < r.payment_months.getD 0) :
    calculateMonthlyContribution month year r amt =
      if 0 ≤ getMonthIndexC year month - getMonthIndexC ty tm ∧
          getMonthIndexC year month - getMonthIndexC ty tm < r.payment_months.getD 0 then
        amt / (r.payment_months.getD 0 : ℚ)
      else 0 := by
  obtain ⟨s, hs⟩ := tx_some_of_parse r _ htx
  rw [hs] at htx
  simp only [calculateMonthlyContribution, hs, htx, getMonthIndex_eq, selectedMonthIndex_eq]
  rw [if_pos hpm]

/-- Server due-range rule for a non-recurring record with no explicit plan
and a parseable due date no earlier (by month) than the transaction date:
full amount inside the inclusive month range, nothing outside it. -/
theorem server_due_range_rule (month year : Int) (r : Finance) (ty tm dy dm : Int)
    (amt : ℚ)
    (htx : parseDateParts r.transaction_date = some (ty, tm))
    (hdp : parseDateParts r.due_date = some (dy, dm))
    (hpm : ¬1 < r.payment_months.getD 0)
    (hrec : r.is_recurring = false)
    (hrange : getMonthIndexC ty tm ≤ getMonthIndexC dy dm) :
    calculateMonthlyContribution month year r amt =
      if getMonthIndexC ty tm ≤ getMonthIndexC year month ∧
          getMonthIndexC year month ≤ getMonthIndexC dy dm then amt
      else 0 := by
  obtain ⟨s, hs⟩ := tx_some_of_parse r _ htx
  rw [hs] at htx
  simp only [calculateMonthlyContribution, hs, htx, hdp, getMonthIndex_eq,
    selectedMonthIndex_eq]
  rw [if_neg hpm]
  have hrecn : ¬(r.is_recurring = true) := by rw [hrec]; simp
  by_cases hC : getMonthIndexC ty tm ≤ getMonthIndexC year month ∧
      getMonthIndexC year month ≤ getMonthIndexC dy dm
  · rw [if_pos hC, if_pos hC]
  · rw [if_neg hC, if_neg hC, if_neg hrecn,
      if_neg (show ¬(getMonthIndexC year month = getMonthIndexC ty tm) from
        fun h0 => hC ⟨by omega, by omega⟩)]

/-- Server recurring rule for records with no explicit multi-month plan: the
full amount is contributed for every queried month. -/
theorem server_recurring_rule (month year : Int) (r : Finance) (ty tm : Int)
    (amt : ℚ)
    (htx : parseDateParts r.transaction_date = some (ty, tm))
    (hpm : ¬1 < r.payment_months.getD 0)
    (hrec : r.is_recurring = true) :
    calculateMonthlyContribution month year r amt = amt := by
  obtain ⟨s, hs⟩ := tx_some_of_parse r _ htx
  rw [hs] at htx
  cases hdp : parseDateParts r.due_date with
  | none =>
    simp only [calculateMonthlyContribution, hs, htx, hdp]
    rw [if_neg hpm, if_pos hrec]
  | some dp =>
    simp only [calculateMonthlyContribution, hs, htx, hdp]
    rw [if_neg hpm]
    by_cases hC : getMonthIndex (ty, tm) ≤ selectedMonthIndex month year ∧
        selectedMonthIndex month year ≤ getMonthIndex dp
    · rw [if_pos hC]
    · rw [if_neg hC, if_pos hrec]

/-- Client recurring rule: a recurring record with no explicit multi-month
plan is displayed with the full amount in every queried month. -/
theorem client_recurring_rule (cy cm : Int) (r : Finance)
    (hpm : ¬1 < r.payment_months.getD 0)
    (hrec : r.is_recurring = true) :
    clientDisplayedAmount cy cm r = r.amount := by
  rw [clientAmount_unfold]
  by_cases hcond : 1 < planMonthsOf cy cm r ∧ 0 ≤ monthsDiffOf cy cm r ∧
      monthsDiffOf cy cm r < planMonthsOf cy cm r
  · rw [if_pos hcond, if_neg hpm]
  · rw [if_neg hcond, if_pos hrec]

/-- C1 counterexample: a record with an explicit 3-month plan AND
isRecurring = true, queried in May 2024 (outside its Jan-Mar 2024 plan
window), is NOT Inactive in the client display spreading - it falls through
to the recurring branch and is displayed - contradicting the claim that the
plan rule classifies it strictly in both implementations. -/
theorem C1_counterexample :
    displayFinanceForMonth 2024 5
      { id := 1, type := FinType.expense, amount := 1200,
        transaction_date := some "2024-01-15", payment_months := some 3,
        is_recurring := true } ≠ ClientDisplay.hidden := by
  decide

/-- C1 (amended): the server classifies an explicit payment_months > 1 record
strictly by the plan rule (Inactive outside the window even when recurring);
within any single queried month the client produces at most one entry per
record (never both a plan and a recurring entry); but in the client a
recurring record is never Inactive - outside the plan window it falls back
to the recurring branch and is still displayed. -/
theorem C1_plan_precedence (month year cy cm : Int) (r : Finance) (amt : ℚ)
    (ty tm : Int)
    (htx : parseDateParts r.transaction_date = some (ty, tm))
    (hpm : 1 < r.payment_months.getD 0) :
    calculateMonthlyContribution month year r amt =
      (if 0 ≤ getMonthIndexC year month - getMonthIndexC ty tm ∧
          getMonthIndexC year month - getMonthIndexC ty tm < r.payment_months.getD 0 then
        amt / (r.payment_months.getD 0 : ℚ)
      else 0) ∧
    (processFinancesForDisplay cy cm [r]).length ≤ 1 ∧
    (r.is_recurring = true → displayFinanceForMonth cy cm r ≠ ClientDisplay.hidden) := by
  refine ⟨server_plan_rule month year r ty tm amt htx hpm, ?_, ?_⟩
  · unfold processFinancesForDisplay
    cases hE : displayedEntry cy cm r <;> simp [hE]
  · intro hrec
    unfold displayFinanceForMonth
    by_cases hcond : 1 < planMonthsOf cy cm r ∧ 0 ≤ monthsDiffOf cy cm r ∧
        monthsDiffOf cy cm r < planMonthsOf cy cm r
    · rw [if_pos hcond]; simp
    · rw [if_neg hcond, if_pos hrec]; simp

/-- Witness for C1: the plan/recurring record of the counterexample, queried
in May 2024; the server contributes 0 there while the client still shows one
(recurring) entry. -/
theorem C1_plan_precedence_witness :
    parseDateParts (some "2024-01-15") = some (2024, 1) ∧
    (1 : Int) < ({ id := 1, type := FinType.expense, amount := 1200, transaction_date := some "2024-01-15", payment_months := some 3, is_recurring := true } : Finance).payment_months.getD 0 ∧
    (calculateMonthlyContribution 5 2024 { id := 1, type := FinType.expense, amount := 1200, transaction_date := some "2024-01-15", payment_months := some 3, is_recurring := true } 1200 =
      (if 0 ≤ getMonthIndexC 2024 5 - getMonthIndexC 2024 1 ∧
          getMonthIndexC 2024 5 - getMonthIndexC 2024 1 < ({ id := 1, type := FinType.expense, amount := 1200, transaction_date := some "2024-01-15", payment_months := some 3, is_recurring := true } : Finance).payment_months.getD 0 then
        (1200 : ℚ) / (({ id := 1, type := FinType.expense, amount := 1200, transaction_date := some "2024-01-15", payment_months := some 3, is_recurring := true } : Finance).payment_months.getD 0 : ℚ)
      else 0) ∧
    (processFinancesForDisplay 2024 5 [{ id := 1, type := FinType.expense, amount := 1200, transaction_date := some "2024-01-15", payment_months := some 3, is_recurring := true }]).length ≤ 1 ∧
    (({ id := 1, type := FinType.expense, amount := 1200, transaction_date := some "2024-01-15", payment_months := some 3, is_recurring := true } : Finance).is_recurring = true →
      displayFinanceForMonth 2024 5 { id := 1, type := FinType.expense, amount := 1200, transaction_date := some "2024-01-15", payment_months := some 3, is_recurring := true } ≠ ClientDisplay.hidden)) :=
  ⟨by decide, by decide,
   C1_plan_precedence 5 2024 2024 5 _ 1200 2024 1 (by decide) (by decide)⟩

/-- C5 counterexample: a recurring record that also carries an explicit
3-month plan (amount 1200, transaction January 2024) is queried in February
2024, a month ≥ its transaction month: the server contributes the plan share
400, not the full undivided 1200 the claim requires for recurring records. -/
theorem C5_counterexample :
    calculateMonthlyContribution 2 2024 { id := 5, type := FinType.expense, amount := 1200, transaction_date := some "2024-01-15", payment_months := some 3, is_recurring := true } 1200 = 400 ∧
    (400 : ℚ) ≠ 1200 := by
  constructor
  · have hp : parseDateParts (some "2024-01-15") = some (2024, 1) := by decide
    norm_num [calculateMonthlyContribution, hp, selectedMonthIndex, getMonthIndex]
  · norm_num

/-- C5 (amended): a recurring record with a parseable transaction date and no
explicit multi-month payment_months is Active with the full undivided amount
in every queried month (in particular every month ≥ its transaction month),
in both the server aggregation and the client display. -/
theorem C5_recurring_activation (month year cy cm : Int) (r : Finance)
    (ty tm : Int) (amt : ℚ)
    (htx : parseDateParts r.transaction_date = some (ty, tm))
    (hpm : ¬1 < r.payment_months.getD 0)
    (hrec : r.is_recurring = true) :
    calculateMonthlyContribution month year r amt = amt ∧
    clientDisplayedAmount cy cm r = r.amount :=
  ⟨server_recurring_rule month year r ty tm amt htx hpm hrec,
   client_recurring_rule cy cm r hpm hrec⟩

/-- Witness for C5 at the claim's own scenario: expense 50, transaction
2024-03-01, recurring, queried July 2024 - full amount 50 on both sides. -/
theorem C5_recurring_activation_witness :
    parseDateParts (some "2024-03-01") = some (2024, 3) ∧
    (calculateMonthlyContribution 7 2024 { id := 6, type := FinType.expense, amount := 50, transaction_date := some "2024-03-01", is_recurring := true } 50 = 50 ∧
    clientDisplayedAmount 2024 7 { id := 6, type := FinType.expense, amount := 50, transaction_date := some "2024-03-01", is_recurring := true } =
      ({ id := 6, type := FinType.expense, amount := 50, transaction_date := some "2024-03-01", is_recurring := true } : Finance).amount) :=
  ⟨by decide,
   C5_recurring_activation 7 2024 2024 7 _ 2024 3 50 (by decide) (by decide) (by decide)⟩

/-- C4 counterexample: the due-date-range record of the claim's scenario but
with isRecurring = true (amount 300, transaction 2024-01-10, due 2024-03-10),
queried in April 2024 - outside the inclusive range - is NOT Inactive: the
server falls through to the recurring rule and contributes the full 300, and
the client also still displays it. -/
theorem C4_counterexample :
    calculateMonthlyContribution 4 2024 { id := 7, type := FinType.expense, amount := 300, transaction_date := some "2024-01-10", due_date := some "2024-03-10", is_recurring := true } 300 = 300 ∧
    (300 : ℚ) ≠ 0 ∧
    displayFinanceForMonth 2024 4 { id := 7, type := FinType.expense, amount := 300, transaction_date := some "2024-01-10", due_date := some "2024-03-10", is_recurring := true } ≠ ClientDisplay.hidden := by
  refine ⟨?_, by norm_num, by decide⟩
  have hp : parseDateParts (some "2024-01-10") = some (2024, 1) := by decide
  have hq : parseDateParts (some "2024-03-10") = some (2024, 3) := by decide
  norm_num [calculateMonthlyContribution, hp, hq, selectedMonthIndex, getMonthIndex]

/-- C4 (amended): for a NON-recurring record with no explicit multi-month
payment_months, a parseable transaction date and a parseable, truthy due date
whose month is not before the transaction month, both implementations are
Active with the full undivided amount exactly in the inclusive month range
[transaction month, due month] and Inactive outside it. -/
theorem C4_due_range (month year : Int) (r : Finance) (sd : String)
    (ty tm dy dm : Int)
    (htx : parseDateParts r.transaction_date = some (ty, tm))
    (hsd : r.due_date = some sd)
    (hdt : strTruthy (some sd) = true)
    (hdp : parseDateParts (some sd) = some (dy, dm))
    (hpm : ¬1 < r.payment_months.getD 0)
    (hrec : r.is_recurring = false)
    (hrange : getMonthIndexC ty tm ≤ getMonthIndexC dy dm) :
    calculateMonthlyContribution month year r r.amount =
      (if getMonthIndexC ty tm ≤ getMonthIndexC year month ∧
          getMonthIndexC year month ≤ getMonthIndexC dy dm then r.amount else 0) ∧
    clientDisplayedAmount year month r =
      (if getMonthIndexC ty tm ≤ getMonthIndexC year month ∧
          getMonthIndexC year month ≤ getMonthIndexC dy dm then r.amount else 0) := by
  have hdp2 : parseDateParts r.due_date = some (dy, dm) := by rw [hsd]; exact hdp
  have hserver := server_due_range_rule month year r ty tm dy dm r.amount
    htx hdp2 hpm hrec hrange
  refine ⟨hserver, ?_⟩
  have hclient := clientServer_per_record month year r ty tm htx
    (Or.inr ⟨by rw [hsd]; exact hdt, by rw [hdp2]; simp⟩) (fun h => hpm h.1)
  rw [hclient, if_neg (fun h => hpm h.1), hserver]

/-- Witness for C4 at the claim's own scenario: amount 300, transaction
2024-01-10, due 2024-03-10, not recurring, queried February 2024 - Active
with the full 300 on both sides. -/
theorem C4_due_range_witness :
    parseDateParts (some "2024-01-10") = some (2024, 1) ∧
    parseDateParts (some "2024-03-10") = some (2024, 3) ∧
    (calculateMonthlyContribution 2 2024 { id := 8, type := FinType.expense, amount := 300, transaction_date := some "2024-01-10", due_date := some "2024-03-10" } ({ id := 8, type := FinType.expense, amount := 300, transaction_date := some "2024-01-10", due_date := some "2024-03-10" } : Finance).amount =
      (if getMonthIndexC 2024 1 ≤ getMonthIndexC 2024 2 ∧
          getMonthIndexC 2024 2 ≤ getMonthIndexC 2024 3 then
        ({ id := 8, type := FinType.expense, amount := 300, transaction_date := some "2024-01-10", due_date := some "2024-03-10" } : Finance).amount else 0) ∧
    clientDisplayedAmount 2024 2 { id := 8, type := FinType.expense, amount := 300, transaction_date := some "2024-01-10", due_date := some "2024-03-10" } =
      (if getMonthIndexC 2024 1 ≤ getMonthIndexC 2024 2 ∧
          getMonthIndexC 2024 2 ≤ getMonthIndexC 2024 3 then
        ({ id := 8, type := FinType.expense, amount := 300, transaction_date := some "2024-01-10", due_date := some "2024-03-10" } : Finance).amount else 0)) :=
  ⟨by decide, by decide,
   C4_due_range 2 2024 _ "2024-03-10" 2024 1 2024 3 (by decide) rfl (by decide)
     (by decide) (by decide) rfl (by decide)⟩

/-- C3 counterexample: explicit 3-month plan on amount 100, queried in its
own transaction month: the server's displayed (contributed) amount is the
UNROUNDED 100/3, not the claimed round(100/3 * 100)/100 = 33.33 - the
2-decimal rounding happens only on the client. -/
theorem C3_counterexample :
    calculateMonthlyContribution 1 2024 { id := 9, type := FinType.expense, amount := 100, transaction_date := some "2024-01-15", payment_months := some 3 } 100 = 100 / 3 ∧
    getMonthlyAmount 100 3 = 3333 / 100 ∧
    (100 / 3 : ℚ) ≠ 3333 / 100 := by
  refine ⟨?_, ?_, by norm_num⟩
  · have hp : parseDateParts (some "2024-01-15") = some (2024, 1) := by decide
    norm_num [calculateMonthlyContribution, hp, selectedMonthIndex, getMonthIndex]
  · norm_num [getMonthlyAmount, jsMathRound, jsEpsilon]

/-- C3 (amended): for an explicit plan of payment_months = n > 1 with a
parseable transaction date, both sides are Active exactly when
0 ≤ monthsDiff < n; the server contributes the unrounded amount/n, while the
client displays getMonthlyAmount (the 2-decimal rounded division) with
planIndex = monthsDiff + 1; outside the window a non-recurring record is
hidden on the client too. -/
theorem C3_explicit_plan (month year : Int) (r : Finance) (ty tm : Int)
    (amt : ℚ)
    (htx : parseDateParts r.transaction_date = some (ty, tm))
    (hpm : 1 < r.payment_months.getD 0) :
    (calculateMonthlyContribution month year r amt =
      if 0 ≤ getMonthIndexC year month - getMonthIndexC ty tm ∧
          getMonthIndexC year month - getMonthIndexC ty tm < r.payment_months.getD 0 then
        amt / (r.payment_months.getD 0 : ℚ)
      else 0) ∧
    ((0 ≤ getMonthIndexC year month - getMonthIndexC ty tm ∧
      getMonthIndexC year month - getMonthIndexC ty tm < r.payment_months.getD 0) →
      clientDisplayedAmount year month r =
        getMonthlyAmount r.amount (r.payment_months.getD 0) ∧
      (displayedEntry year month r).map DisplayedFinance.payment_month_index =
        some (some (getMonthIndexC year month - getMonthIndexC ty tm + 1))) ∧
    (¬(0 ≤ getMonthIndexC year month - getMonthIndexC ty tm ∧
        getMonthIndexC year month - getMonthIndexC ty tm < r.payment_months.getD 0) →
      r.is_recurring = false → displayedEntry year month r = none) := by
  obtain ⟨s, hs⟩ := tx_some_of_parse r _ htx
  have htx2 : parseDateParts (some s) = some (ty, tm) := by rw [hs] at htx; exact htx
  have hmd := monthsDiffOf_eq year month r ty tm s hs htx2
  have hplan : planMonthsOf year month r = r.payment_months.getD 0 := by
    unfold planMonthsOf; rw [if_pos hpm]
  refine ⟨server_plan_rule month year r ty tm amt htx hpm, ?_, ?_⟩
  · intro hw
    constructor
    · rw [clientAmount_unfold, hplan, hmd, if_pos ⟨hpm, hw.1, hw.2⟩, if_pos hpm]
    · unfold displayedEntry displayFinanceForMonth
      rw [hplan, hmd, if_pos ⟨hpm, hw.1, hw.2⟩]
      rfl
  · intro hw hrec
    have hrecn : ¬(r.is_recurring = true) := by rw [hrec]; simp
    unfold displayedEntry displayFinanceForMonth
    rw [hplan, hmd, if_neg (show ¬(1 < r.payment_months.getD 0 ∧
        0 ≤ getMonthIndexC year month - getMonthIndexC ty tm ∧
        getMonthIndexC year month - getMonthIndexC ty tm < r.payment_months.getD 0)
        from fun hcon => hw ⟨hcon.2.1, hcon.2.2⟩),
      if_neg hrecn,
      if_neg (show ¬(getMonthIndexC year month - getMonthIndexC ty tm = 0)
        from fun h0 => hw ⟨by omega, by omega⟩)]

/-- Witness for C3 at the claim's own scenario (amount 1200, transaction
2024-01-15, paymentMonths 3), queried February 2024: monthsDiff = 1, Active,
client amount 400 with planIndex 2, server share 1200/3. -/
theorem C3_explicit_plan_witness :
    parseDateParts (some "2024-01-15") = some (2024, 1) ∧
    (1 : Int) < ({ id := 10, type := FinType.expense, amount := 1200, transaction_date := some "2024-01-15", payment_months := some 3 } : Finance).payment_months.getD 0 ∧
    ((calculateMonthlyContribution 2 2024 { id := 10, type := FinType.expense, amount := 1200, transaction_date := some "2024-01-15", payment_months := some 3 } 1200 =
      if 0 ≤ getMonthIndexC 2024 2 - getMonthIndexC 2024 1 ∧
          getMonthIndexC 2024 2 - getMonthIndexC 2024 1 < ({ id := 10, type := FinType.expense, amount := 1200, transaction_date := some "2024-01-15", payment_months := some 3 } : Finance).payment_months.getD 0 then
        (1200 : ℚ) / (({ id := 10, type := FinType.expense, amount := 1200, transaction_date := some "2024-01-15", payment_months := some 3 } : Finance).payment_months.getD 0 : ℚ)
      else 0) ∧
    ((0 ≤ getMonthIndexC 2024 2 - getMonthIndexC 2024 1 ∧
      getMonthIndexC 2024 2 - getMonthIndexC 2024 1 < ({ id := 10, type := FinType.expense, amount := 1200, transaction_date := some "2024-01-15", payment_months := some 3 } : Finance).payment_months.getD 0) →
      clientDisplayedAmount 2024 2 { id := 10, type := FinType.expense, amount := 1200, transaction_date := some "2024-01-15", payment_months := some 3 } =
        getMonthlyAmount ({ id := 10, type := FinType.expense, amount := 1200, transaction_date := some "2024-01-15", payment_months := some 3 } : Finance).amount (({ id := 10, type := FinType.expense, amount := 1200, transaction_date := some "2024-01-15", payment_months := some 3 } : Finance).payment_months.getD 0) ∧
      (displayedEntry 2024 2 { id := 10, type := FinType.expense, amount := 1200, transaction_date := some "2024-01-15", payment_months := some 3 }).map DisplayedFinance.payment_month_index =
        some (some (getMonthIndexC 2024 2 - getMonthIndexC 2024 1 + 1))) ∧
    (¬(0 ≤ getMonthIndexC 2024 2 - getMonthIndexC 2024 1 ∧
        getMonthIndexC 2024 2 - getMonthIndexC 2024 1 < ({ id := 10, type := FinType.expense, amount := 1200, transaction_date := some "2024-01-15", payment_months := some 3 } : Finance).payment_months.getD 0) →
      ({ id := 10, type := FinType.expense, amount := 1200, transaction_date := some "2024-01-15", payment_months := some 3 } : Finance).is_recurring = false → displayedEntry 2024 2 { id := 10, type := FinType.expense, amount := 1200, transaction_date := some "2024-01-15", payment_months := some 3 } = none)) :=
  ⟨by decide, by decide,
   C3_explicit_plan 2 2024 _ 2024 1 1200 (by decide) (by decide)⟩

/-- C2 counterexample: one expense record with an explicit 3-month plan on
amount 100, queried in its transaction month: the server balance total is the
unrounded 100/3 while the client display total is the rounded 33.33 - the two
implementations do not attribute the same amount to the month. -/
theorem C2_counterexample :
    serverTotalFor FinType.expense 1 2024 [{ id := 11, type := FinType.expense, amount := 100, transaction_date := some "2024-01-15", payment_months := some 3 }] = 100 / 3 ∧
    clientTotalFor FinType.expense 1 2024 [{ id := 11, type := FinType.expense, amount := 100, transaction_date := some "2024-01-15", payment_months := some 3 }] = 3333 / 100 ∧
    (100 / 3 : ℚ) ≠ 3333 / 100 := by
  refine ⟨?_, ?_, by norm_num⟩
  · have hp : parseDateParts (some "2024-01-15") = some (2024, 1) := by decide
    norm_num [serverTotalFor, calculateMonthlyContribution, hp,
      selectedMonthIndex, getMonthIndex]
  · have hplan : planMonthsOf 2024 1 { id := 11, type := FinType.expense, amount := 100, transaction_date := some "2024-01-15", payment_months := some 3 } = 3 := by decide
    have hmd : monthsDiffOf 2024 1 { id := 11, type := FinType.expense, amount := 100, transaction_date := some "2024-01-15", payment_months := some 3 } = 0 := by decide
    rw [clientTotalFor]
    norm_num [clientAmount_unfold, hplan, hmd, getMonthlyAmount, jsMathRound, jsEpsilon]

/-- C2 (amended): the two implementations agree record by record - and hence
on the per-type totals - for record sets whose members have a parseable
transaction date, an absent or truthy-and-parseable due date, do not combine
an explicit multi-month plan with the recurring flag, and whose explicit plan
shares divide exactly to 2 decimal places (otherwise the client's rounded
plan share differs from the server's unrounded division). -/
theorem C2_totals_agree (month year : Int) (records : List Finance) (t : FinType)
    (h : ∀ r ∈ records,
      (∃ ty tm, parseDateParts r.transaction_date = some (ty, tm)) ∧
      (r.due_date = none ∨
        (strTruthy r.due_date = true ∧ parseDateParts r.due_date ≠ none)) ∧
      ¬(1 < r.payment_months.getD 0 ∧ r.is_recurring = true) ∧
      (1 < r.payment_months.getD 0 →
        getMonthlyAmount r.amount (r.payment_months.getD 0) =
          r.amount / (r.payment_months.getD 0 : ℚ))) :
    clientTotalFor t month year records = serverTotalFor t month year records := by
  unfold clientTotalFor serverTotalFor
  induction records with
  | nil => rfl
  | cons r rest ih =>
    simp only [List.map_cons, List.sum_cons]
    obtain ⟨⟨ty, tm, htx⟩, hdue, hnr, hexact⟩ := h r (by simp)
    have hper := clientServer_per_record month year r ty tm htx hdue hnr
    have hhead : clientDisplayedAmount year month r =
        calculateMonthlyContribution month year r r.amount := by
      rw [hper]
      by_cases hcond : 1 < r.payment_months.getD 0 ∧
          0 ≤ getMonthIndexC year month - getMonthIndexC ty tm ∧
          getMonthIndexC year month - getMonthIndexC ty tm < r.payment_months.getD 0
      · rw [if_pos hcond, hexact hcond.1,
          server_plan_rule month year r ty tm r.amount htx hcond.1,
          if_pos ⟨hcond.2.1, hcond.2.2⟩]
      · rw [if_neg hcond]
    rw [hhead, ih (fun r2 hr2 => h r2 (by simp [hr2]))]

/-- 1200 split over 3 months is exact at 2 decimals: the client rounding
changes nothing. -/
theorem getMonthlyAmount_1200_3 : getMonthlyAmount 1200 3 = 1200 / ((3 : Int) : ℚ) := by
  norm_num [getMonthlyAmount, jsMathRound, jsEpsilon]

/-- Witness for C2: a single well-formed plan record (1200 over 3 months,
which divides exactly to 400), queried January 2024 - the client and server
totals coincide. -/
theorem C2_totals_agree_witness :
    clientTotalFor FinType.expense 1 2024 [{ id := 12, type := FinType.expense, amount := 1200, transaction_date := some "2024-01-15", payment_months := some 3 }] =
      serverTotalFor FinType.expense 1 2024 [{ id := 12, type := FinType.expense, amount := 1200, transaction_date := some "2024-01-15", payment_months := some 3 }] :=
  C2_totals_agree 1 2024 _ FinType.expense (by
    intro r hr
    simp only [List.mem_singleton] at hr
    subst hr
    exact ⟨⟨2024, 1, by decide⟩, Or.inl rfl, by decide,
      fun _ => getMonthlyAmount_1200_3⟩)

/-- Splitting ivHex:tagHex:payload on the colon recovers the three parts when
none of them contains a colon (hex strings never do). -/
theorem splitOnChar_colon_three (a b c : String)
    (ha : ':' ∉ a.data) (hb : ':' ∉ b.data) (hc : ':' ∉ c.data) :
    splitOnChar ':' (a ++ ":" ++ b ++ ":" ++ c) = [a, b, c] := by
  unfold splitOnChar
  have hdata : (a ++ ":" ++ b ++ ":" ++ c).data
      = [':'].intercalate [a.data, b.data, c.data] := by
    simp [List.intercalate, List.intersperse, String.data_append]
  rw [hdata, List.splitOn_intercalate [a.data, b.data, c.data] ':'
    (by simp [ha, hb, hc]) (by simp)]
  rfl

/-- jsParseFloat recovers 0.01 from its decimal rendering. -/
theorem jsParseFloat_001 : jsParseFloat "0.01" = some (1 / 100) := by
  have hs : jsParseFloatScan "0.01" = some (false, ['0'], ['0', '1']) := by decide
  norm_num [jsParseFloat, hs, floatPartsVal,
    show digitsToNat ['0'] = 0 from by decide,
    show digitsToNat ['0', '1'] = 1 from by decide]

/-- jsParseFloat recovers 19.99 from its decimal rendering. -/
theorem jsParseFloat_1999 : jsParseFloat "19.99" = some (1999 / 100) := by
  have hs : jsParseFloatScan "19.99" = some (false, ['1', '9'], ['9', '9']) := by decide
  norm_num [jsParseFloat, hs, floatPartsVal,
    show digitsToNat ['1', '9'] = 19 from by decide,
    show digitsToNat ['9', '9'] = 99 from by decide]

/-- jsParseFloat recovers 1000000 from its decimal rendering. -/
theorem jsParseFloat_1000000 : jsParseFloat "1000000" = some 1000000 := by
  have hs : jsParseFloatScan "1000000" =
      some (false, ['1', '0', '0', '0', '0', '0', '0'], []) := by decide
  norm_num [jsParseFloat, hs, floatPartsVal,
    show digitsToNat ['1', '0', '0', '0', '0', '0', '0'] = 1000000 from by decide,
    show digitsToNat [] = 0 from rfl]

/-- C8: amount codec round trip under both at-rest strategies.  The
multiplicative obfuscation divides out exactly; the AES-GCM codec recovers
the amount whenever the cipher/decipher pair inverts on the rendered
plaintext (the GCM library guarantee), the rendering parses back to the
amount (the JS Number.toString/parseFloat guarantee), and the hex fields
contain no colon. -/
theorem C8_codec_round_trip (x : ℚ) (numToString : ℚ → String)
    (ivHex tagHex : String) (cipher decipher : String → String)
    (hparse : jsParseFloat (numToString x) = some x)
    (hcd : decipher (cipher (numToString x)) = numToString x)
    (hiv : ':' ∉ ivHex.data) (htag : ':' ∉ tagHex.data)
    (henc : ':' ∉ (cipher (numToString x)).data) :
    deobfuscateAmount (obfuscateAmount x) = x ∧
    decryptAmount decipher (encryptAmount numToString ivHex tagHex cipher x) =
      DecryptResult.value (some x) := by
  constructor
  · unfold obfuscateAmount deobfuscateAmount AMOUNT_OBFUSCATION_FACTOR
    rw [mul_div_assoc]
    norm_num
  · unfold encryptAmount decryptAmount
    rw [splitOnChar_colon_three ivHex tagHex (cipher (numToString x)) hiv htag henc]
    show DecryptResult.value (jsParseFloat (decipher (cipher (numToString x)))) =
      DecryptResult.value (some x)
    rw [hcd, hparse]

/-- Witness for C8 at the claim's three representative amounts, with the
crypto primitives instantiated concretely for each payload. -/
theorem C8_codec_round_trip_witness :
    (deobfuscateAmount (obfuscateAmount (1 / 100)) = 1 / 100 ∧
      decryptAmount (fun _ => "0.01")
        (encryptAmount (fun _ => "0.01") "ab" "cd" (fun _ => "30") (1 / 100)) =
        DecryptResult.value (some (1 / 100))) ∧
    (deobfuscateAmount (obfuscateAmount (1999 / 100)) = 1999 / 100 ∧
      decryptAmount (fun _ => "19.99")
        (encryptAmount (fun _ => "19.99") "ab" "cd" (fun _ => "31") (1999 / 100)) =
        DecryptResult.value (some (1999 / 100))) ∧
    (deobfuscateAmount (obfuscateAmount 1000000) = 1000000 ∧
      decryptAmount (fun _ => "1000000")
        (encryptAmount (fun _ => "1000000") "ab" "cd" (fun _ => "32") 1000000) =
        DecryptResult.value (some 1000000)) :=
  ⟨C8_codec_round_trip (1 / 100) (fun _ => "0.01") "ab" "cd" (fun _ => "30")
      (fun _ => "0.01") jsParseFloat_001 rfl (by decide) (by decide) (by decide),
   C8_codec_round_trip (1999 / 100) (fun _ => "19.99") "ab" "cd" (fun _ => "31")
      (fun _ => "19.99") jsParseFloat_1999 rfl (by decide) (by decide) (by decide),
   C8_codec_round_trip 1000000 (fun _ => "1000000") "ab" "cd" (fun _ => "32")
      (fun _ => "1000000") jsParseFloat_1000000 rfl (by decide) (by decide) (by decide)⟩

/-- C9 counterexample: an update that changes a field AND supplies an invalid
visibility id returns a 400 client error - but the field change is already
applied when the error is returned, because the PUT handler runs its UPDATE
before validating the visibility list.  The category has changed from "old"
to "new" in the retained state, so the write was partially applied. -/
theorem C9_counterexample :
    (match putFinance [1]
        { row := { type := "expense", category := "old", amount := 0, description := none, transaction_date := "2024-01-01", is_recurring := false, due_date := none, payment_months := none }, visibility := [1] }
        { category := some "new", visible_to_user_ids := some [99] } with
     | PutOutcome.clientError code s2 => (code, s2.row.category, s2.visibility)
     | PutOutcome.ok _ => (0, "", [])) = (400, "new", [1]) ∧
    "new" ≠ "old" :=
  ⟨by decide, by decide⟩

/-- C9 (amended): visibility validation is atomic on create - an invalid id
fails the POST before anything is inserted - and on update it never touches
the visibility rows; but the PUT handler applies the provided field updates
before validating, so a failed validation leaves the fields updated (only a
request with no field updates leaves the record fully unchanged). -/
theorem C9_visibility_validation (validUserIds : List Int) (s : FinanceState)
    (reqP : PostRequest) (reqU : PutRequest) (idsP idsU : List Int)
    (hP : reqP.visible_to_user_ids = some idsP)
    (hPinv : (!idsP.isEmpty && idsP.any fun i => !(validUserIds.contains i)) = true)
    (hU : reqU.visible_to_user_ids = some idsU)
    (hUinv : (!idsU.isEmpty && idsU.any fun i => !(validUserIds.contains i)) = true)
    (hUpm : (match reqU.payment_months with
      | some (some n) => decide (n < 1)
      | _ => false) = false)
    (hUty : (match reqU.type with
      | some t => !(t == "income" || t == "expense")
      | none => false) = false) :
    postFinance validUserIds reqP = PostOutcome.clientError 400 ∧
    putFinance validUserIds s reqU =
      PutOutcome.clientError 400
        { row := applyFieldUpdates s.row reqU, visibility := s.visibility } ∧
    (reqU.type = none → reqU.category = none → reqU.amount = none →
      reqU.description = none → reqU.transaction_date = none →
      reqU.is_recurring = none → reqU.due_date = none →
      reqU.payment_months = none →
      putFinance validUserIds s reqU = PutOutcome.clientError 400 s) := by
  have hput : putFinance validUserIds s reqU =
      PutOutcome.clientError 400
        { row := applyFieldUpdates s.row reqU, visibility := s.visibility } := by
    unfold putFinance
    rw [if_neg (show ¬((match reqU.payment_months with
        | some (some n) => decide (n < 1)
        | _ => false) = true) by rw [hUpm]; simp),
      if_neg (show ¬((match reqU.type with
        | some t => !(t == "income" || t == "expense")
        | none => false) = true) by rw [hUty]; simp)]
    simp only [hU]
    rw [if_pos hUinv]
  refine ⟨?_, hput, ?_⟩
  · unfold postFinance
    by_cases h1 : postRequiredMissing reqP = true
    · rw [if_pos h1]
    · rw [if_neg h1]
      by_cases h2 : ¬(reqP.type = some "income" ∨ reqP.type = some "expense")
      · rw [if_pos h2]
      · rw [if_neg h2, if_pos (show (match reqP.visible_to_user_ids with
          | some ids => !ids.isEmpty && ids.any fun i => !(validUserIds.contains i)
          | none => false) = true by rw [hP]; exact hPinv)]
  · intro h1 h2 h3 h4 h5 h6 h7 h8
    rw [hput]
    have hrow : applyFieldUpdates s.row reqU = s.row := by
      unfold applyFieldUpdates
      rw [h1, h2, h3, h4, h5, h6, h7, h8]
    rw [hrow]

/-- Witness for C9: owner id 1 is the only valid visibility target; a POST
and a PUT both naming user 99 fail with 400, the PUT retaining its field
updates. -/
theorem C9_visibility_validation_witness :
    postFinance [1] { type := some "expense", category := some "c", amount := some 5, transaction_date := some "2024-01-01", visible_to_user_ids := some [99] } = PostOutcome.clientError 400 ∧
    putFinance [1]
        { row := { type := "expense", category := "c", amount := 5, description := none, transaction_date := "2024-01-01", is_recurring := false, due_date := none, payment_months := none }, visibility := [1] }
        { category := some "d", visible_to_user_ids := some [99] } =
      PutOutcome.clientError 400
        { row := applyFieldUpdates { type := "expense", category := "c", amount := 5, description := none, transaction_date := "2024-01-01", is_recurring := false, due_date := none, payment_months := none } { category := some "d", visible_to_user_ids := some [99] },
          visibility := [1] } ∧
    (({ category := some "d", visible_to_user_ids := some [99] } : PutRequest).type = none →
      ({ category := some "d", visible_to_user_ids := some [99] } : PutRequest).category = none →
      ({ category := some "d", visible_to_user_ids := some [99] } : PutRequest).amount = none →
      ({ category := some "d", visible_to_user_ids := some [99] } : PutRequest).description = none →
      ({ category := some "d", visible_to_user_ids := some [99] } : PutRequest).transaction_date = none →
      ({ category := some "d", visible_to_user_ids := some [99] } : PutRequest).is_recurring = none →
      ({ category := some "d", visible_to_user_ids := some [99] } : PutRequest).due_date = none →
      ({ category := some "d", visible_to_user_ids := some [99] } : PutRequest).payment_months = none →
      putFinance [1]
        { row := { type := "expense", category := "c", amount := 5, description := none, transaction_date := "2024-01-01", is_recurring := false, due_date := none, payment_months := none }, visibility := [1] }
        { category := some "d", visible_to_user_ids := some [99] } =
        PutOutcome.clientError 400
          { row := { type := "expense", category := "c", amount := 5, description := none, transaction_date := "2024-01-01", is_recurring := false, due_date := none, payment_months := none }, visibility := [1] }) :=
  C9_visibility_validation [1] _ _ _ [99] [99] rfl (by decide) rfl (by decide)
    (by decide) (by decide)
